import Mathlib

/-!
Verification of the depth-image processing core (resampler, colormap engine,
frame renderer, row store, query service) and of two utilities of the
power-plant analytics service (percentage calculation, model validation).

The image-processing service's Python modules (src/data_processing.py,
src/image_generation.py, src/database.py, src/api.py, config.py) are not part
of the repository snapshot — only its README, Dockerfile, compose file and
startup script are.  Those components are therefore modelled from the
specification text, as marked on each definition.  Numeric values are
modelled as exact rationals.
-/

namespace DepthImage

/-- Modelled from the spec: the fractional source position used by the
resampler, `pos = i * (200-1) / (150-1)` (src/data_processing.py is absent
from the snapshot). -/
def srcPos (i : ℕ) : ℚ := (i : ℚ) * (200 - 1) / (150 - 1)

/-- Modelled from the spec: `lo = floor(pos)`. -/
def loIdx (i : ℕ) : ℕ := ⌊srcPos i⌋.toNat

/-- Modelled from the spec: `hi = min(lo+1, 199)`. -/
def hiIdx (i : ℕ) : ℕ := min (loIdx i + 1) 199

/-- Modelled from the spec: `frac = pos - lo`. -/
def fracPart (i : ℕ) : ℚ := srcPos i - ⌊srcPos i⌋

/-- Modelled from the spec: one output sample of the resampler,
`input[lo] * (1 - frac) + input[hi] * frac` (linear interpolation). -/
def resampleAt (input : List ℚ) (i : ℕ) : ℚ :=
  input.getD (loIdx i) 0 * (1 - fracPart i) + input.getD (hiIdx i) 0 * fracPart i

/-- Modelled from the spec: the Resampler, converting a 200-sample row to the
150 output positions `0 ≤ i < 150`. -/
def resample (input : List ℚ) : List ℚ :=
  (List.range 150).map (resampleAt input)

lemma srcPos_zero : srcPos 0 = 0 := by
  simp [srcPos]

lemma srcPos_last : srcPos 149 = 199 := by
  norm_num [srcPos]

lemma srcPos_nonneg (i : ℕ) : 0 ≤ srcPos i := by
  unfold srcPos
  positivity

lemma srcPos_mono {i j : ℕ} (h : i ≤ j) : srcPos i ≤ srcPos j := by
  unfold srcPos
  gcongr

lemma srcPos_le {i : ℕ} (h : i ≤ 149) : srcPos i ≤ 199 := by
  have h1 : srcPos i ≤ srcPos 149 := srcPos_mono h
  simpa [srcPos_last] using h1

lemma loIdx_zero : loIdx 0 = 0 := by
  simp [loIdx, srcPos_zero]

lemma fracPart_zero : fracPart 0 = 0 := by
  simp [fracPart, srcPos_zero]

lemma loIdx_last : loIdx 149 = 199 := by
  norm_num [loIdx, srcPos_last]
  rfl

lemma fracPart_last : fracPart 149 = 0 := by
  norm_num [fracPart, srcPos_last]

lemma loIdx_le {i : ℕ} (h : i ≤ 149) : loIdx i ≤ 199 := by
  have h1 : ⌊srcPos i⌋ ≤ ⌊(199:ℚ)⌋ := Int.floor_le_floor (srcPos_le h)
  have h2 : ⌊srcPos i⌋ ≤ 199 := by simpa using h1
  exact Int.toNat_le.mpr h2

lemma hiIdx_le (i : ℕ) : hiIdx i ≤ 199 :=
  min_le_right _ _

lemma resample_length (input : List ℚ) : (resample input).length = 150 := by
  simp [resample]

lemma resample_getD (input : List ℚ) {i : ℕ} (h : i < 150) :
    (resample input).getD i 0 = resampleAt input i := by
  rw [resample, List.getD_eq_getElem?_getD, List.getElem?_map, List.getElem?_range h]
  rfl

lemma resampleAt_zero (input : List ℚ) : resampleAt input 0 = input.getD 0 0 := by
  simp [resampleAt, loIdx_zero, fracPart_zero]

lemma resampleAt_last (input : List ℚ) : resampleAt input 149 = input.getD 199 0 := by
  simp [resampleAt, loIdx_last, fracPart_last, hiIdx]

/-- The interpolant of the resampler as a function of the fractional source
position, over an arbitrary sample function. -/
def lerpAt (f : ℕ → ℚ) (p : ℚ) : ℚ :=
  f ⌊p⌋.toNat * (1 - (p - ⌊p⌋)) + f (min (⌊p⌋.toNat + 1) 199) * (p - ⌊p⌋)

lemma resampleAt_eq_lerpAt (input : List ℚ) (i : ℕ) :
    resampleAt input i = lerpAt (fun k => input.getD k 0) (srcPos i) :=
  rfl

lemma sub_floor_nonneg (p : ℚ) : 0 ≤ p - ⌊p⌋ := by
  have h := Int.fract_nonneg p
  rwa [Int.fract] at h

lemma sub_floor_lt_one (p : ℚ) : p - ⌊p⌋ < 1 := by
  have h := Int.fract_lt_one p
  rwa [Int.fract] at h

lemma le_lerpAt (f : ℕ → ℚ) (p : ℚ)
    (hfp : f ⌊p⌋.toNat ≤ f (min (⌊p⌋.toNat + 1) 199)) :
    f ⌊p⌋.toNat ≤ lerpAt f p := by
  have h0 := sub_floor_nonneg p
  unfold lerpAt
  nlinarith [mul_nonneg h0 (sub_nonneg.mpr hfp)]

lemma lerpAt_le (f : ℕ → ℚ) (p : ℚ)
    (hfp : f ⌊p⌋.toNat ≤ f (min (⌊p⌋.toNat + 1) 199)) :
    lerpAt f p ≤ f (min (⌊p⌋.toNat + 1) 199) := by
  have h1 := sub_floor_lt_one p
  unfold lerpAt
  nlinarith [mul_nonneg (by linarith : (0:ℚ) ≤ 1 - (p - ⌊p⌋)) (sub_nonneg.mpr hfp)]

lemma lerpAt_mono (f : ℕ → ℚ) (hf : ∀ i j, i ≤ j → j ≤ 199 → f i ≤ f j)
    {p q : ℚ} (hp : 0 ≤ p) (hq : q ≤ 199) (hpq : p ≤ q) :
    lerpAt f p ≤ lerpAt f q := by
  have hp0 : (0:ℤ) ≤ ⌊p⌋ := Int.floor_nonneg.mpr hp
  have hq199 : ⌊q⌋ ≤ 199 := by
    simpa using Int.floor_le_floor hq
  have hfl : ⌊p⌋ ≤ ⌊q⌋ := Int.floor_le_floor hpq
  have hlpq : ⌊p⌋.toNat ≤ ⌊q⌋.toNat := Int.toNat_le_toNat hfl
  have hlq' : ⌊q⌋.toNat ≤ 199 := Int.toNat_le.mpr hq199
  have hlp' : ⌊p⌋.toNat ≤ 199 := le_trans hlpq hlq'
  have hup : f ⌊p⌋.toNat ≤ f (min (⌊p⌋.toNat + 1) 199) :=
    hf _ _ (le_min (by omega) hlp') (min_le_right _ _)
  have huq : f ⌊q⌋.toNat ≤ f (min (⌊q⌋.toNat + 1) 199) :=
    hf _ _ (le_min (by omega) hlq') (min_le_right _ _)
  rcases lt_or_eq_of_le hfl with hlt | heq
  · have hstep : ⌊p⌋.toNat + 1 ≤ ⌊q⌋.toNat := by omega
    have hmid : f (min (⌊p⌋.toNat + 1) 199) ≤ f ⌊q⌋.toNat :=
      hf _ _ (le_trans (min_le_left _ _) hstep) hlq'
    exact le_trans (lerpAt_le f p hup) (le_trans hmid (le_lerpAt f q huq))
  · unfold lerpAt
    rw [← heq]
    nlinarith [mul_nonneg (sub_nonneg.mpr hpq) (sub_nonneg.mpr hup)]

lemma lerpAt_neg (f : ℕ → ℚ) (p : ℚ) :
    lerpAt (fun k => -(f k)) p = - lerpAt f p := by
  unfold lerpAt
  ring

/-- C1: for a 200-sample input, the resampler yields 150 samples, each given
by linear interpolation `input[lo] * (1 - frac) + input[hi] * frac` at
`pos = i * (200-1) / (150-1)`, with the edge positions mapping exactly to
`input[0]` and `input[199]`. -/
theorem resample_formula (input : List ℚ) (h : input.length = 200) :
    (resample input).length = 150 ∧
    (∀ i, i < 150 →
      (resample input).getD i 0 =
        input.getD (loIdx i) 0 * (1 - fracPart i) + input.getD (hiIdx i) 0 * fracPart i) ∧
    (resample input).getD 0 0 = input.getD 0 0 ∧
    (resample input).getD 149 0 = input.getD 199 0 := by
  refine ⟨resample_length input, fun i hi => ?_, ?_, ?_⟩
  · rw [resample_getD _ hi]
    rfl
  · rw [resample_getD _ (by norm_num), resampleAt_zero]
  · rw [resample_getD _ (by norm_num), resampleAt_last]

/-- Witness for C1 at the concrete input `[0, …, 0]` of length 200. -/
theorem resample_formula_witness :
    (resample (List.replicate 200 (0:ℚ))).getD 149 0
      = (List.replicate 200 (0:ℚ)).getD 199 0 :=
  (resample_formula (List.replicate 200 0) (List.length_replicate _ _)).2.2.2

lemma getD_replicate200 {k : ℕ} (hk : k < 200) (c : ℚ) :
    (List.replicate 200 c).getD k 0 = c := by
  rw [List.getD_eq_getElem?_getD, List.getElem?_replicate]
  simp [hk]

/-- C8: resampling the constant vector `[c]*200` yields the constant vector
`[c]*150`. -/
theorem resample_const (c : ℚ) :
    resample (List.replicate 200 c) = List.replicate 150 c := by
  rw [resample, List.eq_replicate_iff]
  refine ⟨by simp, ?_⟩
  intro b hb
  simp only [List.mem_map, List.mem_range] at hb
  obtain ⟨i, hi, rfl⟩ := hb
  have hlo : loIdx i ≤ 199 := loIdx_le (by omega)
  have hhi : hiIdx i ≤ 199 := hiIdx_le i
  rw [resampleAt, getD_replicate200 (by omega) c, getD_replicate200 (by omega) c]
  ring

/-- C7: the resampler maps 200-length monotone inputs (non-decreasing,
respectively non-increasing) to 150-length outputs monotone in the same
sense, with the edges preserved exactly. -/
theorem resample_monotone (input : List ℚ) (h : input.length = 200) :
    ((∀ i j, i ≤ j → j < 200 → input.getD i 0 ≤ input.getD j 0) →
      ∀ i j, i ≤ j → j < 150 →
        (resample input).getD i 0 ≤ (resample input).getD j 0) ∧
    ((∀ i j, i ≤ j → j < 200 → input.getD j 0 ≤ input.getD i 0) →
      ∀ i j, i ≤ j → j < 150 →
        (resample input).getD j 0 ≤ (resample input).getD i 0) ∧
    (resample input).length = 150 ∧
    (resample input).getD 0 0 = input.getD 0 0 ∧
    (resample input).getD 149 0 = input.getD 199 0 := by
  refine ⟨?_, ?_, resample_length input, ?_, ?_⟩
  · intro hm i j hij hj
    rw [resample_getD _ (lt_of_le_of_lt hij hj), resample_getD _ hj,
        resampleAt_eq_lerpAt, resampleAt_eq_lerpAt]
    exact lerpAt_mono _ (fun a b hab hb => hm a b hab (by omega))
      (srcPos_nonneg i) (srcPos_le (by omega)) (srcPos_mono hij)
  · intro hm i j hij hj
    have key := lerpAt_mono (fun k => -(input.getD k 0))
      (fun a b hab hb => neg_le_neg (hm a b hab (by omega)))
      (srcPos_nonneg i) (srcPos_le (show j ≤ 149 by omega)) (srcPos_mono hij)
    rw [lerpAt_neg, lerpAt_neg] at key
    rw [resample_getD _ (lt_of_le_of_lt hij hj), resample_getD _ hj,
        resampleAt_eq_lerpAt, resampleAt_eq_lerpAt]
    linarith
  · rw [resample_getD _ (by norm_num), resampleAt_zero]
  · rw [resample_getD _ (by norm_num), resampleAt_last]

/-- Witness for C7 at the concrete non-decreasing input `[0, …, 0]`. -/
theorem resample_monotone_witness :
    (resample (List.replicate 200 (0:ℚ))).getD 0 0
      ≤ (resample (List.replicate 200 (0:ℚ))).getD 5 0 :=
  (resample_monotone (List.replicate 200 0) (List.length_replicate _ _)).1
    (fun i j hij hj => by
      rw [getD_replicate200 (lt_of_le_of_lt hij hj) 0, getD_replicate200 hj 0])
    0 5 (by norm_num) (by norm_num)

/-- Modelled from the spec: the closed enumeration of palette names
(src/image_generation.py and config.py are absent from the snapshot). -/
inductive Colormap where
  | grayscale
  | heatmap
  | viridis
  | plasma
deriving DecidableEq

/-- Modelled from the spec: clamp `t` to [0,1] before lookup. -/
def clamp01 (t : ℚ) : ℚ := max 0 (min 1 t)

/-- Modelled from the spec: grayscale, `r=g=b=round(t*255)`. -/
def grayscaleAt (t : ℚ) : ℤ × ℤ × ℤ :=
  (round (t * 255), round (t * 255), round (t * 255))

/-- Modelled from the spec: piecewise-linear interpolation between the two
control points bracketing `t`, componentwise, over a fixed stop table. -/
def interpStops (stops : List (ℚ × ℚ × ℚ)) (t : ℚ) : ℤ × ℤ × ℤ :=
  let pos := t * ((stops.length : ℚ) - 1)
  let lo := ⌊pos⌋.toNat
  let hi := min (lo + 1) (stops.length - 1)
  let fr := pos - ⌊pos⌋
  let c0 := stops.getD lo (0, 0, 0)
  let c1 := stops.getD hi (0, 0, 0)
  (round (c0.1 * (1 - fr) + c1.1 * fr),
   round (c0.2.1 * (1 - fr) + c1.2.1 * fr),
   round (c0.2.2 * (1 - fr) + c1.2.2 * fr))

/-- Modelled from the spec: heatmap, the black→red→yellow→white warm
gradient. -/
def heatmapStops : List (ℚ × ℚ × ℚ) :=
  [(0, 0, 0), (255, 0, 0), (255, 255, 0), (255, 255, 255)]

/-- Modelled from the spec: a 17-stop control-point table reproducing the
viridis color sequence. -/
def viridisStops : List (ℚ × ℚ × ℚ) :=
  [(68, 1, 84), (71, 24, 106), (72, 40, 120), (69, 55, 129), (64, 71, 136),
   (57, 86, 140), (51, 99, 141), (45, 112, 142), (40, 125, 142),
   (35, 138, 141), (31, 150, 139), (32, 163, 134), (41, 175, 127),
   (60, 188, 117), (86, 198, 103), (143, 215, 68), (253, 231, 37)]

/-- Modelled from the spec: a 17-stop control-point table reproducing the
plasma color sequence. -/
def plasmaStops : List (ℚ × ℚ × ℚ) :=
  [(13, 8, 135), (51, 5, 151), (80, 2, 162), (106, 0, 168), (132, 5, 167),
   (156, 23, 158), (177, 42, 144), (195, 61, 128), (211, 81, 113),
   (225, 100, 98), (237, 121, 83), (246, 143, 68), (252, 166, 54),
   (254, 190, 42), (253, 215, 36), (248, 230, 33), (240, 249, 33)]

/-- Modelled from the spec: the palette function of each colormap on an
already-clamped intensity. -/
def paletteAt : Colormap → ℚ → ℤ × ℤ × ℤ
  | Colormap.grayscale, t => grayscaleAt t
  | Colormap.heatmap, t => interpStops heatmapStops t
  | Colormap.viridis, t => interpStops viridisStops t
  | Colormap.plasma, t => interpStops plasmaStops t

/-- Modelled from the spec: the Colormap Engine, clamping `t` to [0,1] before
the palette lookup. -/
def applyColormap (cm : Colormap) (t : ℚ) : ℤ × ℤ × ℤ :=
  paletteAt cm (clamp01 t)

lemma clamp01_of_nonpos {t : ℚ} (h : t ≤ 0) : clamp01 t = 0 := by
  unfold clamp01
  rw [min_eq_right (le_trans h (by norm_num)), max_eq_left h]

lemma clamp01_of_one_le {t : ℚ} (h : 1 ≤ t) : clamp01 t = 1 := by
  unfold clamp01
  rw [min_eq_left h, max_eq_right (by norm_num)]

lemma clamp01_of_mem {t : ℚ} (h0 : 0 ≤ t) (h1 : t ≤ 1) : clamp01 t = t := by
  unfold clamp01
  rw [min_eq_right h1, max_eq_right h0]

/-- C5: the grayscale colormap returns `r=g=b=round(t*255)` on [0,1], maps 0
to black and 1 to white, and every colormap is deterministic. -/
theorem grayscale_spec :
    (∀ t : ℚ, 0 ≤ t → t ≤ 1 →
      applyColormap Colormap.grayscale t
        = (round (t * 255), round (t * 255), round (t * 255))) ∧
    applyColormap Colormap.grayscale 0 = (0, 0, 0) ∧
    applyColormap Colormap.grayscale 1 = (255, 255, 255) ∧
    (∀ (cm : Colormap) (t u : ℚ), t = u → applyColormap cm t = applyColormap cm u) := by
  refine ⟨?_, ?_, ?_, ?_⟩
  · intro t h0 h1
    rw [applyColormap, clamp01_of_mem h0 h1]
    rfl
  · rw [applyColormap, clamp01_of_mem le_rfl (by norm_num)]
    show (round ((0:ℚ) * 255), round ((0:ℚ) * 255), round ((0:ℚ) * 255)) = (0, 0, 0)
    norm_num
  · rw [applyColormap, clamp01_of_mem (by norm_num) le_rfl]
    show (round ((1:ℚ) * 255), round ((1:ℚ) * 255), round ((1:ℚ) * 255)) = (255, 255, 255)
    norm_num
  · intro cm t u h
    rw [h]

/-- Witness for C5 at the concrete intensity `t = 1/2`. -/
theorem grayscale_spec_witness :
    applyColormap Colormap.grayscale (1/2)
      = (round ((1/2 : ℚ) * 255), round ((1/2 : ℚ) * 255), round ((1/2 : ℚ) * 255)) :=
  grayscale_spec.1 (1/2) (by norm_num) (by norm_num)

/-- C6: every palette clamps out-of-range intensities, never wraps them:
below 0 it yields the palette value at 0, above 1 the value at 1, in
particular at `t = -5` and `t = 1.7`. -/
theorem colormap_clamp (cm : Colormap) (t : ℚ) :
    (t < 0 → applyColormap cm t = applyColormap cm 0) ∧
    (1 < t → applyColormap cm t = applyColormap cm 1) ∧
    applyColormap cm (-5) = applyColormap cm 0 ∧
    applyColormap cm (17/10) = applyColormap cm 1 := by
  refine ⟨?_, ?_, ?_, ?_⟩
  · intro h
    rw [applyColormap, applyColormap, clamp01_of_nonpos (le_of_lt h),
        clamp01_of_nonpos le_rfl]
  · intro h
    rw [applyColormap, applyColormap, clamp01_of_one_le (le_of_lt h),
        clamp01_of_one_le le_rfl]
  · rw [applyColormap, applyColormap, clamp01_of_nonpos (by norm_num),
        clamp01_of_nonpos le_rfl]
  · rw [applyColormap, applyColormap, clamp01_of_one_le (by norm_num),
        clamp01_of_one_le le_rfl]

/-- Witness for C6 at the concrete palette viridis and intensity `t = -1`. -/
theorem colormap_clamp_witness :
    applyColormap Colormap.viridis (-1) = applyColormap Colormap.viridis 0 :=
  (colormap_clamp Colormap.viridis (-1)).1 (by norm_num)

/-- Modelled from the spec: one persisted record, a depth value plus its 150
resampled intensities (src/database.py is absent from the snapshot). -/
structure DepthRow where
  depth : ℚ
  values : List ℚ

/-- All values across all rows, in row order. -/
def allValues (rows : List DepthRow) : List ℚ :=
  (rows.map DepthRow.values).flatten

/-- Modelled from the spec: the global minimum over all values in all rows
(single pass); 0 when there are no values at all. -/
def globalMin (rows : List DepthRow) : ℚ :=
  match allValues rows with
  | [] => 0
  | v :: vs => vs.foldl min v

/-- Modelled from the spec: the global maximum over all values in all rows
(single pass); 0 when there are no values at all. -/
def globalMax (rows : List DepthRow) : ℚ :=
  match allValues rows with
  | [] => 0
  | v :: vs => vs.foldl max v

/-- Modelled from the spec: min-max normalization of one value to [0,1]; if
min == max, every value is treated as `t = 0.5`. -/
def normalizeVal (gmin gmax v : ℚ) : ℚ :=
  if gmin = gmax then 1/2 else (v - gmin) / (gmax - gmin)

/-- Modelled from the spec: the Frame Renderer's pixel buffer: one image row
per depth row, one pixel per value, each value normalized and mapped through
the Colormap Engine. -/
def renderImage (rows : List DepthRow) (cm : Colormap) : List (List (ℤ × ℤ × ℤ)) :=
  rows.map fun r => r.values.map fun v =>
    applyColormap cm (normalizeVal (globalMin rows) (globalMax rows) v)

lemma foldl_fixed_of_all_eq (f : ℚ → ℚ → ℚ) (c : ℚ) (hf : f c c = c) :
    ∀ (l : List ℚ), (∀ x ∈ l, x = c) → ∀ a, a = c → l.foldl f a = c := by
  intro l
  induction l with
  | nil => intro _ a ha; simpa using ha
  | cons x xs ih =>
    intro hl a ha
    have hx : x = c := hl x (List.mem_cons_self x xs)
    have hxs : ∀ y ∈ xs, y = c := fun y hy => hl y (List.mem_cons_of_mem x hy)
    rw [List.foldl_cons]
    exact ih hxs (f a x) (by rw [ha, hx, hf])

lemma globalMin_eq_globalMax_of_all_eq (rows : List DepthRow) (c : ℚ)
    (hall : ∀ v ∈ allValues rows, v = c) :
    globalMin rows = globalMax rows := by
  unfold globalMin globalMax
  cases hav : allValues rows with
  | nil => rfl
  | cons v vs =>
    have hv : v = c := hall v (by rw [hav]; exact List.mem_cons_self v vs)
    have hvs : ∀ y ∈ vs, y = c := fun y hy =>
      hall y (by rw [hav]; exact List.mem_cons_of_mem v hy)
    show List.foldl min v vs = List.foldl max v vs
    rw [foldl_fixed_of_all_eq min c (min_self c) vs hvs v hv,
        foldl_fixed_of_all_eq max c (max_self c) vs hvs v hv]

/-- C4: when every value across all rows of a non-empty row sequence is the
same, the renderer normalizes every value to `t = 0.5` and every pixel of the
output is the chosen palette's color at `t = 0.5`. -/
theorem renderImage_degenerate (rows : List DepthRow) (cm : Colormap) (c : ℚ)
    (hne : rows ≠ [])
    (hall : ∀ v ∈ allValues rows, v = c) :
    (∀ v ∈ allValues rows,
      normalizeVal (globalMin rows) (globalMax rows) v = 1/2) ∧
    (∀ prow ∈ renderImage rows cm, ∀ px ∈ prow, px = applyColormap cm (1/2)) := by
  have hmm := globalMin_eq_globalMax_of_all_eq rows c hall
  have hnorm : ∀ v : ℚ, normalizeVal (globalMin rows) (globalMax rows) v = 1/2 := by
    intro v
    unfold normalizeVal
    rw [if_pos hmm]
  refine ⟨fun v _ => hnorm v, ?_⟩
  intro prow hprow px hpx
  rw [renderImage] at hprow
  obtain ⟨r, _, rfl⟩ := List.mem_map.mp hprow
  obtain ⟨v, _, rfl⟩ := List.mem_map.mp hpx
  rw [hnorm v]

/-- Witness for C4 at the concrete single-row store `[{depth 0, values [3,3]}]`. -/
theorem renderImage_degenerate_witness :
    normalizeVal (globalMin [DepthRow.mk 0 [3, 3]]) (globalMax [DepthRow.mk 0 [3, 3]]) 3
      = 1/2 :=
  (renderImage_degenerate [DepthRow.mk 0 [3, 3]] Colormap.heatmap 3
      (by simp)
      (by intro v hv; simp [allValues] at hv; rw [hv])).1
    3 (by simp [allValues])

/-- Ascending-depth ordering on stored rows. -/
def depthLE (a b : DepthRow) : Prop := a.depth ≤ b.depth

instance : DecidableRel depthLE :=
  fun a b => inferInstanceAs (Decidable (a.depth ≤ b.depth))

instance : IsTotal DepthRow depthLE :=
  ⟨fun a b => le_total a.depth b.depth⟩

instance : IsTrans DepthRow depthLE :=
  ⟨fun _ _ _ hab hbc => le_trans hab hbc⟩

/-- Modelled from the spec: the Row Store range query, returning all rows
with `min ≤ depth ≤ max`, ascending by depth, and the empty sequence (not an
error) when nothing matches. -/
def findByDepthRange (store : List DepthRow) (dmin dmax : ℚ) : List DepthRow :=
  List.insertionSort depthLE
    (store.filter fun r => decide (dmin ≤ r.depth ∧ r.depth ≤ dmax))

/-- Modelled from the spec: the request-scoped error kinds of the Query
Service. -/
inductive RenderError where
  | unknownColormap
  | invalidRange
  | noDataInRange
deriving DecidableEq

/-- Modelled from the spec: the four-element colormap name enumeration. -/
def colormapNames : List String :=
  ["grayscale", "heatmap", "viridis", "plasma"]

/-- Modelled from the spec: resolution of a colormap name against the
enumeration. -/
def parseColormap (s : String) : Option Colormap :=
  if s = "grayscale" then some Colormap.grayscale
  else if s = "heatmap" then some Colormap.heatmap
  else if s = "viridis" then some Colormap.viridis
  else if s = "plasma" then some Colormap.plasma
  else none

/-- Modelled from the spec: the Query Service orchestration
`renderFrame(depthMin, depthMax, colormapName)`: validate the colormap name
first, then the range, then fetch rows and fail with `NoDataInRangeError`
when none match, else render. -/
def renderFrame (store : List DepthRow) (depthMin depthMax : ℚ) (name : String) :
    Except RenderError (List (List (ℤ × ℤ × ℤ))) :=
  match parseColormap name with
  | none => Except.error RenderError.unknownColormap
  | some cm =>
    if depthMin ≤ depthMax then
      if (findByDepthRange store depthMin depthMax).isEmpty then
        Except.error RenderError.noDataInRange
      else
        Except.ok (renderImage (findByDepthRange store depthMin depthMax) cm)
    else Except.error RenderError.invalidRange

lemma parseColormap_eq_none_iff (s : String) :
    parseColormap s = none ↔ s ∉ colormapNames := by
  unfold parseColormap colormapNames
  split_ifs with h1 h2 h3 h4
  · simp [h1]
  · simp [h2]
  · simp [h3]
  · simp [h4]
  · simp [h1, h2, h3, h4]

lemma parseColormap_mem {s : String} (h : s ∈ colormapNames) :
    ∃ cm, parseColormap s = some cm := by
  simp only [colormapNames, List.mem_cons, List.not_mem_nil, or_false] at h
  rcases h with h | h | h | h <;> subst h <;> exact ⟨_, rfl⟩

lemma renderFrame_some (store : List DepthRow) (dmin dmax : ℚ) (name : String)
    (cm : Colormap) (hcm : parseColormap name = some cm) :
    renderFrame store dmin dmax name =
      if dmin ≤ dmax then
        if (findByDepthRange store dmin dmax).isEmpty then
          Except.error RenderError.noDataInRange
        else
          Except.ok (renderImage (findByDepthRange store dmin dmax) cm)
      else Except.error RenderError.invalidRange := by
  unfold renderFrame
  rw [hcm]

/-- C2: every colormap name outside the four-element enumeration makes
`renderFrame` fail with `UnknownColormapError` with a result independent of
the store contents (hence before any Row Store access), and no name inside
the enumeration ever produces that error. -/
theorem renderFrame_colormap_check :
    (∀ name, name ∉ colormapNames →
      ∀ (store : List DepthRow) (dmin dmax : ℚ),
        renderFrame store dmin dmax name
          = Except.error RenderError.unknownColormap) ∧
    (∀ name, name ∈ colormapNames →
      ∀ (store : List DepthRow) (dmin dmax : ℚ),
        renderFrame store dmin dmax name
          ≠ Except.error RenderError.unknownColormap) := by
  constructor
  · intro name hname store dmin dmax
    unfold renderFrame
    rw [(parseColormap_eq_none_iff name).mpr hname]
  · intro name hname store dmin dmax
    obtain ⟨cm, hcm⟩ := parseColormap_mem hname
    rw [renderFrame_some store dmin dmax name cm hcm]
    split_ifs <;> simp

/-- Witness for C2 at the concrete out-of-enumeration name "magma" and the
in-enumeration name "plasma", on the empty store. -/
theorem renderFrame_colormap_check_witness :
    renderFrame [] 0 1 "magma" = Except.error RenderError.unknownColormap :=
  renderFrame_colormap_check.1 "magma" (by decide) [] 0 1

lemma mem_findByDepthRange (store : List DepthRow) (dmin dmax : ℚ) (r : DepthRow) :
    r ∈ findByDepthRange store dmin dmax ↔
      r ∈ store ∧ dmin ≤ r.depth ∧ r.depth ≤ dmax := by
  unfold findByDepthRange
  rw [List.mem_insertionSort, List.mem_filter]
  simp

lemma findByDepthRange_eq_nil_iff (store : List DepthRow) (dmin dmax : ℚ) :
    findByDepthRange store dmin dmax = [] ↔
      ∀ r ∈ store, ¬(dmin ≤ r.depth ∧ r.depth ≤ dmax) := by
  constructor
  · intro h r hr hcond
    have hmem : r ∈ findByDepthRange store dmin dmax :=
      (mem_findByDepthRange store dmin dmax r).mpr ⟨hr, hcond⟩
    rw [h] at hmem
    exact List.not_mem_nil r hmem
  · intro h
    have hfil : store.filter (fun r => decide (dmin ≤ r.depth ∧ r.depth ≤ dmax)) = [] :=
      List.filter_eq_nil_iff.mpr (fun a ha => by simpa using h a ha)
    unfold findByDepthRange
    rw [hfil]
    rfl

/-- C3: for a valid request, `renderFrame` fails with `NoDataInRangeError`
exactly when no stored row lies in the inclusive depth range, while
`findByDepthRange` itself returns the empty sequence in that case and in
general returns exactly the rows with `min ≤ depth ≤ max`, ascending by
depth. -/
theorem renderFrame_noData (store : List DepthRow) (dmin dmax : ℚ) (name : String)
    (hname : name ∈ colormapNames) (hrange : dmin ≤ dmax) :
    (renderFrame store dmin dmax name = Except.error RenderError.noDataInRange ↔
      ∀ r ∈ store, ¬(dmin ≤ r.depth ∧ r.depth ≤ dmax)) ∧
    ((∀ r ∈ store, ¬(dmin ≤ r.depth ∧ r.depth ≤ dmax)) →
      findByDepthRange store dmin dmax = []) ∧
    (∀ r, r ∈ findByDepthRange store dmin dmax ↔
      r ∈ store ∧ dmin ≤ r.depth ∧ r.depth ≤ dmax) ∧
    List.Sorted depthLE (findByDepthRange store dmin dmax) := by
  obtain ⟨cm, hcm⟩ := parseColormap_mem hname
  refine ⟨?_, (findByDepthRange_eq_nil_iff store dmin dmax).mpr,
    mem_findByDepthRange store dmin dmax,
    List.sorted_insertionSort depthLE _⟩
  rw [renderFrame_some store dmin dmax name cm hcm, if_pos hrange,
    ← findByDepthRange_eq_nil_iff store dmin dmax, ← List.isEmpty_iff]
  by_cases hemp : (findByDepthRange store dmin dmax).isEmpty
  · simp [hemp]
  · simp [hemp]

/-- Witness for C3 on the empty store, name "grayscale", range [0,1]. -/
theorem renderFrame_noData_witness :
    renderFrame [] 0 1 "grayscale" = Except.error RenderError.noDataInRange :=
  (renderFrame_noData [] 0 1 "grayscale" (by decide) (by norm_num)).1.mpr
    (by intro r hr; exact absurd hr (List.not_mem_nil r))

end DepthImage

namespace PowerPlants

/-- From src/unnamed/part_002 (BaseService.calculatePercentage): returns 0
when `total <= 0`, else `Math.round((value / total) * 10000) / 100`.
JavaScript numbers are modelled as exact rationals; `Math.round` rounds to
the nearest integer, ties toward positive infinity, as `round` does. -/
def calculatePercentage (value total : ℚ) : ℚ :=
  if total ≤ 0 then 0
  else (round (value / total * 10000) : ℚ) / 100

/-- C9: calculatePercentage returns 0 whenever total ≤ 0, and otherwise
returns (value/total)*100 rounded to exactly two decimal places, i.e.
round((value/total)*10000)/100 — an integer multiple of 1/100 within 1/200
of the exact percentage; it is a total function. -/
theorem calculatePercentage_spec (value total : ℚ) :
    (total ≤ 0 → calculatePercentage value total = 0) ∧
    (0 < total →
      calculatePercentage value total = (round (value / total * 10000) : ℚ) / 100 ∧
      (∃ k : ℤ, calculatePercentage value total = (k : ℚ) / 100) ∧
      |calculatePercentage value total - value / total * 100| ≤ 1 / 200) := by
  constructor
  · intro h
    unfold calculatePercentage
    rw [if_pos h]
  · intro h
    have hne : ¬ total ≤ 0 := not_le.mpr h
    unfold calculatePercentage
    rw [if_neg hne]
    refine ⟨rfl, ⟨round (value / total * 10000), rfl⟩, ?_⟩
    have hb : |value / total * 10000 - (round (value / total * 10000) : ℚ)| ≤ 1 / 2 :=
      abs_sub_round (value / total * 10000)
    have hb2 : |(round (value / total * 10000) : ℚ) - value / total * 10000| ≤ 1 / 2 := by
      rwa [abs_sub_comm] at hb
    have hsplit : (round (value / total * 10000) : ℚ) / 100 - value / total * 100
        = ((round (value / total * 10000) : ℚ) - value / total * 10000) / 100 := by
      ring
    rw [hsplit, abs_div, abs_of_pos (by norm_num : (0:ℚ) < 100)]
    linarith

/-- Witness for C9 at the concrete input value 1, total 2. -/
theorem calculatePercentage_witness :
    calculatePercentage 1 2 = (round ((1:ℚ) / 2 * 10000) : ℚ) / 100 :=
  ((calculatePercentage_spec 1 2).2 (by norm_num)).1

/-- A JavaScript number: an ordinary numeric value or NaN.  `typeof` is
'number' for both; only 0 and NaN are falsy. -/
inductive JsNum where
  | val (q : ℚ)
  | nan
deriving DecidableEq

/-- JavaScript truthiness of a number: 0 and NaN are falsy. -/
def JsNum.falsy : JsNum → Bool
  | JsNum.val q => q == 0
  | JsNum.nan => true

/-- A runtime JavaScript value as relevant to the coordinate checks: a
number, a string, undefined, null, or a boolean. -/
inductive JsValue where
  | num (n : JsNum)
  | str (s : String)
  | undef
  | nullV
  | boolV (b : Bool)
deriving DecidableEq

/-- `typeof v === 'number'`. -/
def JsValue.isNumber : JsValue → Bool
  | JsValue.num _ => true
  | _ => false

/-- From src/USPowerPlant/src/interfaces/PowerPlant.ts (IPowerPlant): the
input record of `PowerPlant.create`.  The declared-required coordinates are
runtime JavaScript values, since the code re-checks their type. -/
structure IPowerPlant where
  id : Option ℚ
  orisCode : JsNum
  plantName : String
  stateAbbr : String
  countyName : Option String
  latitude : JsValue
  longitude : JsValue
  nameplateCapacityMw : Option ℚ
  annualGenerationMwh : Option ℚ
  capacityFactor : Option ℚ
  annualCo2EmissionsTons : Option ℚ
  annualNoxEmissionsTons : Option ℚ
  annualSo2EmissionsTons : Option ℚ
  annualHeatInputMmbtu : Option ℚ
  primaryFuel : Option String
  fuelCategory : Option String
  numGenerators : Option ℚ
  utilityName : Option String
  sector : Option String
  dataYear : Option ℚ

/-- From src/USPowerPlant/src/models/PowerPlant.ts: the constructed model
object, with the same readonly fields copied from the input. -/
structure PowerPlant where
  id : Option ℚ
  orisCode : JsNum
  plantName : String
  stateAbbr : String
  countyName : Option String
  latitude : JsValue
  longitude : JsValue
  nameplateCapacityMw : Option ℚ
  annualGenerationMwh : Option ℚ
  capacityFactor : Option ℚ
  annualCo2EmissionsTons : Option ℚ
  annualNoxEmissionsTons : Option ℚ
  annualSo2EmissionsTons : Option ℚ
  annualHeatInputMmbtu : Option ℚ
  primaryFuel : Option String
  fuelCategory : Option String
  numGenerators : Option ℚ
  utilityName : Option String
  sector : Option String
  dataYear : Option ℚ

/-- From src/USPowerPlant/src/models/PowerPlant.ts (PowerPlant.create),
lines 48–64: reject falsy orisCode, plantName, stateAbbr, then reject
non-number latitude or longitude, else construct. -/
def PowerPlant.create (d : IPowerPlant) : Except String PowerPlant :=
  if d.orisCode.falsy then Except.error "ORIS code is required"
  else if d.plantName = "" then Except.error "Plant name is required"
  else if d.stateAbbr = "" then Except.error "State abbreviation is required"
  else if !d.latitude.isNumber || !d.longitude.isNumber then
    Except.error "Valid latitude and longitude are required"
  else Except.ok
    { id := d.id, orisCode := d.orisCode, plantName := d.plantName,
      stateAbbr := d.stateAbbr, countyName := d.countyName,
      latitude := d.latitude, longitude := d.longitude,
      nameplateCapacityMw := d.nameplateCapacityMw,
      annualGenerationMwh := d.annualGenerationMwh,
      capacityFactor := d.capacityFactor,
      annualCo2EmissionsTons := d.annualCo2EmissionsTons,
      annualNoxEmissionsTons := d.annualNoxEmissionsTons,
      annualSo2EmissionsTons := d.annualSo2EmissionsTons,
      annualHeatInputMmbtu := d.annualHeatInputMmbtu,
      primaryFuel := d.primaryFuel, fuelCategory := d.fuelCategory,
      numGenerators := d.numGenerators, utilityName := d.utilityName,
      sector := d.sector, dataYear := d.dataYear }

/-- C10: PowerPlant.create errors exactly when orisCode is falsy, plantName
or stateAbbr is empty, or a coordinate is not of number type; orisCode = 0 is
rejected with 'ORIS code is required' although 0 is a well-formed number,
while zero coordinates pass the type check, so every constructed instance has
a nonzero numeric orisCode, non-empty name and state, and number-typed
coordinates. -/
theorem powerPlant_create_spec (d : IPowerPlant) :
    ((∃ e, PowerPlant.create d = Except.error e) ↔
      (d.orisCode.falsy = true ∨ d.plantName = "" ∨ d.stateAbbr = "" ∨
        d.latitude.isNumber = false ∨ d.longitude.isNumber = false)) ∧
    (d.orisCode = JsNum.val 0 →
      PowerPlant.create d = Except.error "ORIS code is required") ∧
    ((JsValue.num (JsNum.val 0)).isNumber = true) ∧
    (∀ p, PowerPlant.create d = Except.ok p →
      (∃ q, p.orisCode = JsNum.val q ∧ q ≠ 0) ∧ p.plantName ≠ "" ∧
        p.stateAbbr ≠ "" ∧ p.latitude.isNumber = true ∧
        p.longitude.isNumber = true) := by
  have hval0 : (JsNum.val 0).falsy = true := by
    simp [JsNum.falsy]
  unfold PowerPlant.create
  split_ifs with h1 h2 h3 h4
  · exact ⟨by simp [h1], fun _ => rfl, rfl, fun p hp => by cases hp⟩
  · exact ⟨by simp [h2],
      fun h0 => absurd (show d.orisCode.falsy = true by rw [h0]; exact hval0) h1,
      rfl, fun p hp => by cases hp⟩
  · exact ⟨by simp [h3],
      fun h0 => absurd (show d.orisCode.falsy = true by rw [h0]; exact hval0) h1,
      rfl, fun p hp => by cases hp⟩
  · have hnum : d.latitude.isNumber = false ∨ d.longitude.isNumber = false := by
      simpa using h4
    exact ⟨⟨fun _ => Or.inr (Or.inr (Or.inr hnum)), fun _ => ⟨_, rfl⟩⟩,
      fun h0 => absurd (show d.orisCode.falsy = true by rw [h0]; exact hval0) h1,
      rfl, fun p hp => by cases hp⟩
  · have hboth : d.latitude.isNumber = true ∧ d.longitude.isNumber = true := by
      constructor
      · cases hl : d.latitude.isNumber
        · exact absurd (by simp [hl]) h4
        · rfl
      · cases hg : d.longitude.isNumber
        · exact absurd (by simp [hg]) h4
        · rfl
    have horis : ∃ q, d.orisCode = JsNum.val q ∧ q ≠ 0 := by
      cases ho : d.orisCode with
      | nan =>
        exfalso
        apply h1
        rw [ho]
        rfl
      | val q =>
        refine ⟨q, rfl, fun hq0 => ?_⟩
        apply h1
        rw [ho, hq0]
        exact hval0
    refine ⟨?_, ?_, rfl, ?_⟩
    · constructor
      · rintro ⟨e, he⟩
        cases he
      · rintro (hc | hc | hc | hc | hc)
        · exact (h1 hc).elim
        · exact (h2 hc).elim
        · exact (h3 hc).elim
        · rw [hboth.1] at hc
          cases hc
        · rw [hboth.2] at hc
          cases hc
    · intro h0
      exfalso
      apply h1
      rw [h0]
      exact hval0
    · intro p hp
      cases hp
      exact ⟨horis, h2, h3, hboth.1, hboth.2⟩

/-- Witness for C10: the concrete record with orisCode 0 is rejected with
the ORIS message. -/
theorem powerPlant_create_witness :
    PowerPlant.create
      { id := none, orisCode := JsNum.val 0, plantName := "Test Plant",
        stateAbbr := "CA", countyName := none,
        latitude := JsValue.num (JsNum.val 0),
        longitude := JsValue.num (JsNum.val 0),
        nameplateCapacityMw := none, annualGenerationMwh := none,
        capacityFactor := none, annualCo2EmissionsTons := none,
        annualNoxEmissionsTons := none, annualSo2EmissionsTons := none,
        annualHeatInputMmbtu := none, primaryFuel := none,
        fuelCategory := none, numGenerators := none, utilityName := none,
        sector := none, dataYear := none }
      = Except.error "ORIS code is required" :=
  (powerPlant_create_spec _).2.1 rfl

end PowerPlants
